import Mathlib

/-!
Verification of the PoCS stake accounting core
(`src/pallets/contracts/src/stake/mod.rs`).

The Rust code is shallowly embedded: machine integers become `Nat` with
explicit saturation bounds (`u32` for reputation, `u128` for the stake
score accumulator), the two storage maps become functions
`A → Option _` on an abstract account-id type `A` with decidable
equality, and the event/error side effects of `StakeRequest` become
explicit return values.
-/

namespace PoCS

/-- Maximum value of a `u128`, the stake-score accumulator width. -/
def U128_MAX : Nat := 2 ^ 128 - 1

/-- Maximum value of a `u32`, the reputation counter width. -/
def U32_MAX : Nat := 2 ^ 32 - 1

/-- `u128::saturating_add`: clamp the sum at `u128::MAX`. -/
def satAdd128 (a b : Nat) : Nat := min (a + b) U128_MAX

/-- `u128::saturating_mul`: clamp the product at `u128::MAX`. -/
def satMul128 (a b : Nat) : Nat := min (a * b) U128_MAX

/-- `u32::saturating_add`: clamp the sum at `u32::MAX`. -/
def satAdd32 (a b : Nat) : Nat := min (a + b) U32_MAX

/-- `MIN_REPUTATION`: the minimum reputation required to participate in
staking contracts. -/
def MIN_REPUTATION : Nat := 3

/-- `REPUTATION_FACTOR`: the fixed unit used for incrementing reputation
and initializing it during instantiation. -/
def REPUTATION_FACTOR : Nat := 1

/-- `INITIAL_STAKE_SCORE`: the initial stake score. -/
def INITIAL_STAKE_SCORE : Nat := 0

/-- `DelegateInfo<T>`: the delegation details of a deployed contract,
with `delegate_at` a block number. -/
structure DelegateInfo (A : Type) where
  owner : A
  delegate_to : A
  delegate_at : Nat
  deriving DecidableEq, Repr

/-- `DelegateInfo::new`: the deployer is both the owner and the delegate;
`delegate_at` is the current block number. -/
def DelegateInfo.new (now : Nat) (owner : A) : DelegateInfo A :=
  { owner := owner, delegate_to := owner, delegate_at := now }

/-- `StakeInfo<T>`: gas usage metrics of a contract for staking purposes.
`reputation` is a `u32`, `blockheight` a block number, `stake_score` a
`u128`. -/
structure StakeInfo where
  reputation : Nat
  blockheight : Nat
  stake_score : Nat
  deriving DecidableEq, Repr

/-- `StakeInfo::new`: a fresh record built from the instantiation
constants at the current block number. -/
def StakeInfo.new (now : Nat) : StakeInfo :=
  { reputation := REPUTATION_FACTOR
    blockheight := now
    stake_score := INITIAL_STAKE_SCORE }

/-- `StakeInfo::update`: updates the stake score from the gas provided
(a `u64`, widened to `u128` by `gas as u128`, exact on `Nat`) and
adjusts reputation if the block height has changed.  `now` embeds
`frame_system::Pallet::<T>::block_number()`. -/
def StakeInfo.update (s : StakeInfo) (now : Nat) (gas : Nat) : StakeInfo :=
  if now > s.blockheight then
    { reputation := satAdd32 s.reputation REPUTATION_FACTOR
      blockheight := now
      stake_score := satAdd128 (satMul128 gas s.reputation) s.stake_score }
  else
    { reputation := s.reputation
      blockheight := now
      stake_score := satAdd128 gas s.stake_score }

/-- The only dispatch error raised by this core:
`Error::<T>::NoStakeExists`. -/
inductive DispatchError where
  | NoStakeExists
  deriving DecidableEq, Repr

/-- The events deposited by the stake protocol:
`Event::Staked { contract, stake_score }` and
`Event::ReadyToStake { contract }`. -/
inductive Event (A : Type) where
  | Staked (contract : A) (stake_score : Nat)
  | ReadyToStake (contract : A)
  deriving DecidableEq, Repr

/-- The two Ledger maps: `StakeInfoMap` and `DelegateInfoMap`, both
keyed by contract address. -/
structure Ledger (A : Type) where
  stakeInfoMap : A → Option StakeInfo
  delegateInfoMap : A → Option (DelegateInfo A)

/-- `StakeInfoMap::insert`. -/
def Ledger.insertStakeInfo [DecidableEq A] (st : Ledger A) (k : A)
    (v : StakeInfo) : Ledger A :=
  { st with stakeInfoMap := fun a => if a = k then some v else st.stakeInfoMap a }

/-- `DelegateInfoMap::insert`. -/
def Ledger.insertDelegateInfo [DecidableEq A] (st : Ledger A) (k : A)
    (v : DelegateInfo A) : Ledger A :=
  { st with delegateInfoMap := fun a => if a = k then some v else st.delegateInfoMap a }

/-- Outcome of one `stake` entry: the dispatch result, the Ledger after
the call, and the list of deposited events in order. -/
structure Outcome (A : Type) where
  result : Except DispatchError Unit
  ledger : Ledger A
  events : List (Event A)

/-- `StakeRequest::empty`: initializes an empty stake and delegate entry
for a contract, writing `StakeInfo::new()` and `DelegateInfo::new(origin)`
into their maps. -/
def StakeRequest.empty [DecidableEq A] (st : Ledger A) (now : Nat)
    (origin contract_addr : A) : Ledger A :=
  let stake_info := StakeInfo.new now
  let st := st.insertStakeInfo contract_addr stake_info
  let delegate_info := DelegateInfo.new now origin
  st.insertDelegateInfo contract_addr delegate_info

/-- `StakeRequest::new`: processes an update-path stake request.  Reads
`DelegateInfo` then `StakeInfo` (each failing with `NoStakeExists` when
absent, leaving the Ledger untouched), forces the effective gas to zero
while the contract is immature (`owner == delegate_to`), applies
`StakeInfo::update`, writes the result back, and deposits `Staked`
and/or `ReadyToStake` events. -/
def StakeRequest.new [DecidableEq A] (st : Ledger A) (now : Nat)
    (contract_addr : A) (gas : Nat) : Outcome A :=
  match st.delegateInfoMap contract_addr with
  | none => { result := .error .NoStakeExists, ledger := st, events := [] }
  | some delegate_info =>
    match st.stakeInfoMap contract_addr with
    | none => { result := .error .NoStakeExists, ledger := st, events := [] }
    | some stake_info =>
      let gas := if delegate_info.owner ≠ delegate_info.delegate_to then gas else 0
      let new_stake_info := stake_info.update now gas
      let st := st.insertStakeInfo contract_addr new_stake_info
      let staked_events :=
        if delegate_info.owner ≠ delegate_info.delegate_to then
          [Event.Staked contract_addr new_stake_info.stake_score]
        else []
      let ready_events :=
        if new_stake_info.reputation = MIN_REPUTATION then
          [Event.ReadyToStake contract_addr]
        else []
      { result := .ok (), ledger := st, events := staked_events ++ ready_events }

/-- `StakeRequest::stake`: the entry point.  If `StakeInfoMap` contains
the contract, the update path runs; otherwise the bootstrap path writes
fresh records and deposits no events. -/
def StakeRequest.stake [DecidableEq A] (st : Ledger A) (now : Nat)
    (origin contract_addr : A) (gas : Nat) : Outcome A :=
  if (st.stakeInfoMap contract_addr).isSome then
    StakeRequest.new st now contract_addr gas
  else
    { result := .ok ()
      ledger := StakeRequest.empty st now origin contract_addr
      events := [] }

/-- Modelled from the spec: `StakeInfo::reset` is described in the
specification ("zeroes `stake_score`, refreshes `blockheight`, and keeps
`reputation`") but no `reset` function appears in the source files under
`src/`; this definition follows the spec's words. -/
def StakeInfo.reset (s : StakeInfo) (now : Nat) : StakeInfo :=
  { reputation := s.reputation, blockheight := now, stake_score := 0 }

/-- Fold a sequence of `(now, gas)` update calls over a `StakeInfo`
record, in order. -/
def StakeInfo.applyUpdates (s : StakeInfo) (steps : List (Nat × Nat)) : StakeInfo :=
  steps.foldl (fun acc p => acc.update p.1 p.2) s

/-- Well-formedness of a `StakeInfo` record: its fields fit the machine
widths they have in the source (`u32` reputation, `u128` stake score). -/
def StakeInfo.WF (s : StakeInfo) : Prop :=
  s.reputation ≤ U32_MAX ∧ s.stake_score ≤ U128_MAX

instance (s : StakeInfo) : Decidable s.WF := by
  unfold StakeInfo.WF
  infer_instance

/-- Scenario A ledger just before call 3: contract `1` owned by `0`,
delegated to validator `2` at block 12, stake record
`{reputation 2, blockheight 11, stake_score 0}`. -/
def scenarioA : Ledger Nat :=
  { stakeInfoMap := fun a => if a = 1 then some ⟨2, 11, 0⟩ else none
    delegateInfoMap := fun a => if a = 1 then some ⟨0, 2, 12⟩ else none }

/-- Scenario B starting ledger: delegated contract `1` (owner `0`,
delegate `2`), stake record `{reputation 2, blockheight 19,
stake_score 100}`. -/
def scenarioB : Ledger Nat :=
  { stakeInfoMap := fun a => if a = 1 then some ⟨2, 19, 100⟩ else none
    delegateInfoMap := fun a => if a = 1 then some ⟨0, 2, 19⟩ else none }

/-- A ledger with no records at all. -/
def emptyLedger : Ledger Nat :=
  { stakeInfoMap := fun _ => none, delegateInfoMap := fun _ => none }

/-- A ledger holding a freshly bootstrapped (immature, self-delegated)
contract `1` owned by `0`. -/
def immatureLedger : Ledger Nat :=
  { stakeInfoMap := fun a => if a = 1 then some ⟨1, 10, 0⟩ else none
    delegateInfoMap := fun a => if a = 1 then some ⟨0, 0, 10⟩ else none }

/-- An immature contract `1` that has already reached reputation 2. -/
def immatureLedgerRep2 : Ledger Nat :=
  { stakeInfoMap := fun a => if a = 1 then some ⟨2, 11, 0⟩ else none
    delegateInfoMap := fun a => if a = 1 then some ⟨0, 0, 10⟩ else none }

/-- An inconsistent ledger: `StakeInfoMap` holds contract `1` but
`DelegateInfoMap` does not. -/
def inconsistentLedger : Ledger Nat :=
  { stakeInfoMap := fun a => if a = 1 then some ⟨1, 10, 0⟩ else none
    delegateInfoMap := fun _ => none }

/-! ## Helper lemmas -/

theorem satAdd128_comm (a b : Nat) : satAdd128 a b = satAdd128 b a := by
  unfold satAdd128
  rw [Nat.add_comm]

theorem le_satAdd128 (a b : Nat) (h : b ≤ U128_MAX) : b ≤ satAdd128 a b := by
  unfold satAdd128
  exact le_min (Nat.le_add_left b a) h

theorem le_satAdd32 (a b : Nat) (h : a ≤ U32_MAX) : a ≤ satAdd32 a b := by
  unfold satAdd32
  exact le_min (Nat.le_add_right a b) h

theorem satAdd128_le (a b : Nat) : satAdd128 a b ≤ U128_MAX :=
  min_le_right _ _

theorem satAdd32_le (a b : Nat) : satAdd32 a b ≤ U32_MAX :=
  min_le_right _ _

theorem update_score_le (s : StakeInfo) (now gas : Nat)
    (h : s.stake_score ≤ U128_MAX) :
    s.stake_score ≤ (s.update now gas).stake_score := by
  unfold StakeInfo.update
  split
  · exact le_satAdd128 _ _ h
  · exact le_satAdd128 _ _ h

theorem update_reputation_le (s : StakeInfo) (now gas : Nat)
    (h : s.reputation ≤ U32_MAX) :
    s.reputation ≤ (s.update now gas).reputation := by
  unfold StakeInfo.update
  split
  · exact le_satAdd32 _ _ h
  · exact le_rfl

theorem update_WF (s : StakeInfo) (now gas : Nat) (h : s.WF) :
    (s.update now gas).WF := by
  unfold StakeInfo.update StakeInfo.WF
  split
  · exact ⟨satAdd32_le _ _, satAdd128_le _ _⟩
  · exact ⟨h.1, satAdd128_le _ _⟩

theorem applyUpdates_WF (s : StakeInfo) (steps : List (Nat × Nat)) (h : s.WF) :
    (s.applyUpdates steps).WF := by
  induction steps generalizing s with
  | nil => exact h
  | cons p rest ih => exact ih _ (update_WF _ _ _ h)

theorem applyUpdates_append (s : StakeInfo) (l₁ l₂ : List (Nat × Nat)) :
    s.applyUpdates (l₁ ++ l₂) = (s.applyUpdates l₁).applyUpdates l₂ := by
  unfold StakeInfo.applyUpdates
  exact List.foldl_append _ _ _ _

/-! ## Claim theorems -/

/-- C1: `StakeInfo::update(gas)` computes, when the current block height
is strictly greater than the record's blockheight, a stake score equal
to the saturating sum of the old score and the gas multiplied
saturatingly by the old reputation, a reputation equal to the saturating
sum of the old reputation and 1, and blockheight equal to the current
height; otherwise the score is the saturating sum of the old score and
the gas, the reputation is unchanged, and the blockheight is set to the
current height. -/
theorem update_matches_spec (s : StakeInfo) (now gas : Nat) :
    s.update now gas =
      if s.blockheight < now then
        { reputation := satAdd32 s.reputation 1
          blockheight := now
          stake_score := satAdd128 s.stake_score (satMul128 gas s.reputation) }
      else
        { reputation := s.reputation
          blockheight := now
          stake_score := satAdd128 s.stake_score gas } := by
  unfold StakeInfo.update REPUTATION_FACTOR
  split
  · rw [satAdd128_comm]
  · rw [satAdd128_comm]

/-- C8: updating a record whose stake score sits at the `u128` maximum
leaves the stake score at the maximum, whatever the gas (saturating
arithmetic, no wraparound). -/
theorem update_saturates_at_max (s : StakeInfo) (now gas : Nat)
    (h : s.stake_score = U128_MAX) :
    (s.update now gas).stake_score = U128_MAX := by
  unfold StakeInfo.update
  split <;> simp only [satAdd128, h] <;> omega

/-- Witness for C8 at a concrete record already at the ceiling. -/
theorem update_saturates_at_max_witness :
    (StakeInfo.update ⟨7, 5, U128_MAX⟩ 9 3).stake_score = U128_MAX :=
  update_saturates_at_max ⟨7, 5, U128_MAX⟩ 9 3 rfl

/-- C9: the reset transition zeroes the stake score, refreshes the
blockheight to the current height, and keeps the reputation. -/
theorem reset_spec (s : StakeInfo) (now : Nat) :
    (s.reset now).stake_score = 0 ∧ (s.reset now).blockheight = now ∧
      (s.reset now).reputation = s.reputation :=
  ⟨rfl, rfl, rfl⟩

theorem update_zero_gas_zero_score (s : StakeInfo) (now : Nat)
    (h : s.stake_score = 0) : (s.update now 0).stake_score = 0 := by
  unfold StakeInfo.update
  split <;> simp [satAdd128, satMul128, h, U128_MAX]

/-- C7: across any sequence of updates with non-decreasing block
heights, applied to a well-formed record, the stake score after each
call is at least the stake score before it, and likewise for
reputation. -/
theorem applyUpdates_monotone (s : StakeInfo) (hWF : s.WF)
    (steps : List (Nat × Nat))
    (hmono : List.Chain' (fun p q => p.1 ≤ q.1) steps)
    (i : Nat) (hi : i < steps.length) :
    (s.applyUpdates (steps.take i)).stake_score ≤
        (s.applyUpdates (steps.take (i + 1))).stake_score ∧
      (s.applyUpdates (steps.take i)).reputation ≤
        (s.applyUpdates (steps.take (i + 1))).reputation := by
  have hwf : (s.applyUpdates (steps.take i)).WF := applyUpdates_WF _ _ hWF
  have htake : steps.take (i + 1) = steps.take i ++ (steps[i]?).toList :=
    List.take_succ
  rw [htake, List.getElem?_eq_getElem hi, Option.toList_some, applyUpdates_append]
  have hsingle : ∀ (t : StakeInfo) (p : Nat × Nat),
      t.applyUpdates [p] = t.update p.1 p.2 := fun _ _ => rfl
  rw [hsingle]
  exact ⟨update_score_le _ _ _ hwf.2, update_reputation_le _ _ _ hwf.1⟩

/-- Witness for C7 on a concrete three-step non-decreasing sequence. -/
theorem applyUpdates_monotone_witness :
    ((⟨1, 5, 0⟩ : StakeInfo).applyUpdates
        ([(6, 2), (6, 3), (7, 1)].take 1)).stake_score ≤
      ((⟨1, 5, 0⟩ : StakeInfo).applyUpdates
        ([(6, 2), (6, 3), (7, 1)].take (1 + 1))).stake_score ∧
    ((⟨1, 5, 0⟩ : StakeInfo).applyUpdates
        ([(6, 2), (6, 3), (7, 1)].take 1)).reputation ≤
      ((⟨1, 5, 0⟩ : StakeInfo).applyUpdates
        ([(6, 2), (6, 3), (7, 1)].take (1 + 1))).reputation :=
  applyUpdates_monotone ⟨1, 5, 0⟩ (by decide) [(6, 2), (6, 3), (7, 1)]
    (by simp [List.chain'_cons, List.chain'_singleton]) 1 (by decide)

/-- C4: a stake call on an immature contract (owner equals delegate)
whose stake score is zero records `update` applied with effective gas 0,
keeps the stake score at zero, and emits no `Staked` event, whatever gas
was reported. -/
theorem immature_stake_zero_score [DecidableEq A] (st : Ledger A)
    (now : Nat) (origin contract_addr : A) (gas : Nat)
    (d : DelegateInfo A) (si : StakeInfo)
    (hd : st.delegateInfoMap contract_addr = some d)
    (hself : d.owner = d.delegate_to)
    (hs : st.stakeInfoMap contract_addr = some si)
    (hscore : si.stake_score = 0) :
    (StakeRequest.stake st now origin contract_addr gas).ledger.stakeInfoMap
        contract_addr = some (si.update now 0) ∧
      (si.update now 0).stake_score = 0 ∧
      ∀ sc, Event.Staked contract_addr sc ∉
        (StakeRequest.stake st now origin contract_addr gas).events := by
  unfold StakeRequest.stake StakeRequest.new
  rw [hs, hd]
  simp only [Option.isSome_some, if_true, hself, ne_eq, not_true_eq_false,
    if_false, ite_false]
  refine ⟨?_, update_zero_gas_zero_score si now hscore, ?_⟩
  · simp [Ledger.insertStakeInfo]
  · intro sc
    split <;> simp

/-- Witness for C4 at a concrete immature ledger with nonzero gas. -/
theorem immature_stake_zero_score_witness :
    (StakeRequest.stake immatureLedger 11 0 1 99).ledger.stakeInfoMap 1 =
        some (StakeInfo.update ⟨1, 10, 0⟩ 11 0) ∧
      (StakeInfo.update ⟨1, 10, 0⟩ 11 0).stake_score = 0 ∧
      ∀ sc, Event.Staked 1 sc ∉
        (StakeRequest.stake immatureLedger 11 0 1 99).events :=
  immature_stake_zero_score immatureLedger 11 0 1 99 ⟨0, 0, 10⟩ ⟨1, 10, 0⟩
    rfl rfl rfl rfl

/-- C5: with no `StakeInfo` entry for the contract, `stake` takes the
bootstrap path: it returns success, writes a stake record with
reputation 1, stake score 0 and the current blockheight, writes a
self-delegated `DelegateInfo` stamped with the current height, and
emits no events. -/
theorem stake_bootstrap [DecidableEq A] (st : Ledger A) (now : Nat)
    (origin contract_addr : A) (gas : Nat)
    (h : st.stakeInfoMap contract_addr = none) :
    (StakeRequest.stake st now origin contract_addr gas).result = .ok () ∧
      (StakeRequest.stake st now origin contract_addr gas).ledger.stakeInfoMap
        contract_addr =
        some { reputation := 1, blockheight := now, stake_score := 0 } ∧
      (StakeRequest.stake st now origin contract_addr gas).ledger.delegateInfoMap
        contract_addr =
        some { owner := origin, delegate_to := origin, delegate_at := now } ∧
      (StakeRequest.stake st now origin contract_addr gas).events = [] := by
  unfold StakeRequest.stake
  rw [h]
  simp [StakeRequest.empty, Ledger.insertStakeInfo, Ledger.insertDelegateInfo,
    StakeInfo.new, DelegateInfo.new, REPUTATION_FACTOR, INITIAL_STAKE_SCORE]

/-- Witness for C5 on the empty ledger. -/
theorem stake_bootstrap_witness :
    (StakeRequest.stake emptyLedger 10 0 1 5).result = .ok () ∧
      (StakeRequest.stake emptyLedger 10 0 1 5).ledger.stakeInfoMap 1 =
        some { reputation := 1, blockheight := 10, stake_score := 0 } ∧
      (StakeRequest.stake emptyLedger 10 0 1 5).ledger.delegateInfoMap 1 =
        some { owner := 0, delegate_to := 0, delegate_at := 10 } ∧
      (StakeRequest.stake emptyLedger 10 0 1 5).events = [] :=
  stake_bootstrap emptyLedger 10 0 1 5 rfl

/-- C6: `stake` fails with `NoStakeExists` exactly when `StakeInfoMap`
holds the contract but `DelegateInfoMap` does not, and on that error the
ledger is unchanged and no event has been deposited. -/
theorem stake_noStakeExists [DecidableEq A] (st : Ledger A) (now : Nat)
    (origin contract_addr : A) (gas : Nat) :
    ((StakeRequest.stake st now origin contract_addr gas).result =
          .error .NoStakeExists ↔
        (st.stakeInfoMap contract_addr).isSome = true ∧
          st.delegateInfoMap contract_addr = none) ∧
      ((StakeRequest.stake st now origin contract_addr gas).result =
          .error .NoStakeExists →
        (StakeRequest.stake st now origin contract_addr gas).ledger = st ∧
          (StakeRequest.stake st now origin contract_addr gas).events = []) := by
  rcases hd : st.delegateInfoMap contract_addr with _ | d <;>
    rcases hs : st.stakeInfoMap contract_addr with _ | si <;>
      simp [StakeRequest.stake, StakeRequest.new, hd, hs]

/-- Witness for C6 on a ledger whose `StakeInfoMap` holds contract `1`
while `DelegateInfoMap` is empty. -/
theorem stake_noStakeExists_witness :
    (StakeRequest.stake inconsistentLedger 11 0 1 5).result =
        .error .NoStakeExists ∧
      (StakeRequest.stake inconsistentLedger 11 0 1 5).ledger =
        inconsistentLedger ∧
      (StakeRequest.stake inconsistentLedger 11 0 1 5).events = [] := by
  have h := stake_noStakeExists inconsistentLedger 11 0 1 5
  have herr : (StakeRequest.stake inconsistentLedger 11 0 1 5).result =
      .error .NoStakeExists := h.1.mpr ⟨rfl, rfl⟩
  exact ⟨herr, (h.2 herr).1, (h.2 herr).2⟩

/-- C2 counterexample: on the Scenario B trace, the first call at block
20 raises reputation to 3 and emits `ReadyToStake`, and the second call
in the same block (reputation unchanged at 3) emits `ReadyToStake`
again — the check is level-triggered, not edge-triggered. -/
theorem readyToStake_retriggered_same_block :
    Event.ReadyToStake 1 ∈ (StakeRequest.stake scenarioB 20 0 1 4).events ∧
      Event.ReadyToStake 1 ∈
        (StakeRequest.stake (StakeRequest.stake scenarioB 20 0 1 4).ledger
          20 0 1 6).events := by
  exact ⟨by decide, by decide⟩

/-- C2 amended: the update path of `stake` emits `ReadyToStake` exactly
on the calls where the post-update reputation equals
`MIN_REPUTATION = 3`, however many times that happens. -/
theorem readyToStake_iff_reputation_three [DecidableEq A] (st : Ledger A)
    (now : Nat) (origin contract_addr : A) (gas : Nat)
    (d : DelegateInfo A) (si : StakeInfo)
    (hd : st.delegateInfoMap contract_addr = some d)
    (hs : st.stakeInfoMap contract_addr = some si) :
    Event.ReadyToStake contract_addr ∈
        (StakeRequest.stake st now origin contract_addr gas).events ↔
      (si.update now
          (if d.owner ≠ d.delegate_to then gas else 0)).reputation =
        MIN_REPUTATION := by
  unfold StakeRequest.stake StakeRequest.new
  rw [hs, hd]
  simp only [Option.isSome_some, if_true, List.mem_append]
  constructor
  · rintro (hmem | hmem) <;> revert hmem <;> split <;> simp
  · intro hrep
    right
    simp only [ne_eq, ite_not] at hrep
    simp [hrep]

/-- Witness for the amended C2 on the first Scenario B call. -/
theorem readyToStake_iff_reputation_three_witness :
    Event.ReadyToStake 1 ∈ (StakeRequest.stake scenarioB 20 0 1 4).events ↔
      ((⟨2, 19, 100⟩ : StakeInfo).update 20
          (if (0 : Nat) ≠ 2 then 4 else 0)).reputation = MIN_REPUTATION :=
  readyToStake_iff_reputation_three scenarioB 20 0 1 4 ⟨0, 2, 19⟩
    ⟨2, 19, 100⟩ rfl rfl

/-- C3 counterexample: in Scenario A the delegated call at block 12 with
gas 10 does not produce stake score 30 nor emit `Staked{C,30}` — the
multiplier is the old reputation 2, so the score is 20. -/
theorem scenarioA_not_thirty :
    ¬((StakeRequest.stake scenarioA 12 0 1 10).ledger.stakeInfoMap 1 =
          some ⟨3, 12, 30⟩ ∧
        Event.Staked 1 30 ∈ (StakeRequest.stake scenarioA 12 0 1 10).events) := by
  decide

/-- C3 amended: the Scenario A call at block 12 with gas 10 takes the
new-block branch and produces reputation 3 and stake score 20 (gas 10
times the old reputation 2), emitting `Staked{C,20}` then
`ReadyToStake{C}`. -/
theorem scenarioA_call3 :
    (StakeRequest.stake scenarioA 12 0 1 10).result = .ok () ∧
      (StakeRequest.stake scenarioA 12 0 1 10).ledger.stakeInfoMap 1 =
        some ⟨3, 12, 20⟩ ∧
      (StakeRequest.stake scenarioA 12 0 1 10).events =
        [Event.Staked 1 20, Event.ReadyToStake 1] :=
  ⟨rfl, rfl, rfl⟩

/-- C10: the `ReadyToStake` check ignores delegation status: an
immature (self-delegated) contract updated in a new block still gains
reputation, a `ReadyToStake` event is emitted exactly when the new
reputation is `MIN_REPUTATION = 3`, and no `Staked` event is ever
emitted for it. -/
theorem immature_readyToStake_independent [DecidableEq A] (st : Ledger A)
    (now : Nat) (origin contract_addr : A) (gas : Nat)
    (d : DelegateInfo A) (si : StakeInfo)
    (hd : st.delegateInfoMap contract_addr = some d)
    (hself : d.owner = d.delegate_to)
    (hs : st.stakeInfoMap contract_addr = some si)
    (hnew : si.blockheight < now) :
    (StakeRequest.stake st now origin contract_addr gas).ledger.stakeInfoMap
        contract_addr = some (si.update now 0) ∧
      (si.update now 0).reputation = satAdd32 si.reputation 1 ∧
      (Event.ReadyToStake contract_addr ∈
          (StakeRequest.stake st now origin contract_addr gas).events ↔
        satAdd32 si.reputation 1 = MIN_REPUTATION) ∧
      ∀ sc, Event.Staked contract_addr sc ∉
        (StakeRequest.stake st now origin contract_addr gas).events := by
  have hrep : (si.update now 0).reputation = satAdd32 si.reputation 1 := by
    unfold StakeInfo.update
    rw [if_pos hnew]
    rfl
  unfold StakeRequest.stake StakeRequest.new
  rw [hs, hd]
  simp only [Option.isSome_some, if_true, hself, ne_eq, not_true_eq_false,
    if_false, ite_false, List.nil_append]
  refine ⟨by simp [Ledger.insertStakeInfo], hrep, ?_, ?_⟩
  · rw [hrep]
    split <;> simp_all
  · intro sc
    split <;> simp

/-- Witness for C10: an immature contract at reputation 2 updated in a
new block reaches reputation 3 and gets `ReadyToStake` with no `Staked`
ever emitted. -/
theorem immature_readyToStake_independent_witness :
    Event.ReadyToStake 1 ∈
        (StakeRequest.stake immatureLedgerRep2 12 0 1 7).events ∧
      ∀ sc, Event.Staked 1 sc ∉
        (StakeRequest.stake immatureLedgerRep2 12 0 1 7).events := by
  have h := immature_readyToStake_independent immatureLedgerRep2 12 0 1 7
    ⟨0, 0, 10⟩ ⟨2, 11, 0⟩ rfl rfl rfl (by decide)
  exact ⟨h.2.2.1.mpr (by decide), h.2.2.2⟩

end PoCS
